import Mathlib

/-
  Verification of the sleep-tracker pipeline (backend/main.py,
  backend/lstm_model.py, backend/train_final.py, model/sleep_classifier.py).

  The Python code is shallowly embedded over exact rationals:
  * `np.sqrt` is modelled by `Rat.sqrt`, which agrees with the real square
    root on perfect squares (the only points at which any theorem below
    evaluates it);
  * numpy float arrays become `List ℚ` / `Fin 4 → ℚ`;
  * exceptions become `Except` values.
-/

namespace SleepTracker

/-- The `SleepPhase` string enum of `backend/main.py` (also the
`phase_map` codomain of `backend/lstm_model.py`):
awake = 0, light = 1, deep = 2, rem = 3. -/
inductive SleepPhase where
  | awake
  | light
  | deep
  | rem
deriving DecidableEq, Repr

/-! ### numpy primitives used by the sources -/

/-- Maximum of a list of naturals (`max` of a nonnegative array). -/
def listMaxN (xs : List ℕ) : ℕ := xs.foldr max 0

/-- `np.argmax` on a 1-d integer array: the index of the FIRST occurrence
of the maximum value (numpy's documented tie-breaking rule). -/
def npArgmaxN (xs : List ℕ) : ℕ := xs.findIdx (fun v => v == listMaxN xs)

/-- `np.bincount` on a list of naturals: entry `v` (for `0 ≤ v ≤ max xs`)
is the number of occurrences of `v`. -/
def bincount (xs : List ℕ) : List ℕ :=
  (List.range (listMaxN xs + 1)).map (fun v => xs.count v)

/-- `np.bincount(labels).argmax()` — the majority-vote window label used at
`backend/train_final.py:42` and `model/sleep_classifier.py:106`. -/
def majorityLabel (xs : List ℕ) : ℕ := npArgmaxN (bincount xs)

/-- Python `range(0, stop, step)` for `step > 0`, as a list of indices
(`⌈stop/step⌉` of them). -/
def pyRangeIdx (stop step : ℕ) : List ℕ :=
  (List.range ((stop + step - 1) / step)).map (fun k => k * step)

/-! ### Windowers -/

/-- The sliding-window loop of `backend/train_final.py:39-44`:
`for i in range(0, len(features) - window_size, step_size): window = features[i:i+window_size]`. -/
def slidingWindows (w s : ℕ) (features : List α) : List (List α) :=
  (pyRangeIdx (features.length - w) s).map (fun i => (features.drop i).take w)

/-- The per-window majority labels of the same loop
(`np.bincount(labels[i:i+window_size]).argmax()`, `train_final.py:42`). -/
def slidingWindowLabels (w s : ℕ) (labels : List ℕ) : List ℕ :=
  (pyRangeIdx (labels.length - w) s).map (fun i => majorityLabel ((labels.drop i).take w))

/-- `SleepLSTMModel.create_sequences` (`backend/lstm_model.py:106-123`),
unlabelled variant: `for i in range(len(data) - self.sequence_length):
seq = data[i:i + self.sequence_length]`. -/
def create_sequences (seqLen : ℕ) (data : List α) : List (List α) :=
  (List.range (data.length - seqLen)).map (fun i => (data.drop i).take seqLen)

/-- Labelled variant of `create_sequences`: the label of sequence `i` is
`labels[i + self.sequence_length]` (`lstm_model.py:115`); in-range whenever
`labels` has the length of `data`. -/
def create_sequences_labels (seqLen : ℕ) (data : List α) (labels : List ℕ) : List ℕ :=
  (List.range (data.length - seqLen)).map (fun i => labels.getD (i + seqLen) 0)

/-! ### The LSTM artifact (`backend/lstm_model.py`) -/

/-- Acceleration magnitude `np.sqrt(x**2 + y**2 + z**2)`
(`lstm_model.py:88`, `main.py:129-133`, `main.py:210`), modelled by the
rational square root (exact on perfect squares). -/
def magnitude (x y z : ℚ) : ℚ := Rat.sqrt (x ^ 2 + y ^ 2 + z ^ 2)

/-- A raw accelerometer sample `(x, y, z)`. -/
abbrev Sample3 := ℚ × ℚ × ℚ

/-- `SleepLSTMModel.prepare_features` (`lstm_model.py:77-93`): each sample
becomes the 4-feature row `[x, y, z, magnitude]`. -/
def prepare_features (accel : List Sample3) : List (Fin 4 → ℚ) :=
  accel.map (fun a => ![a.1, a.2.1, a.2.2, magnitude a.1 a.2.1 a.2.2])

/-- Fitted `StandardScaler` parameters: per-feature mean and scale. -/
structure ScalerParams where
  mean : Fin 4 → ℚ
  scale : Fin 4 → ℚ

/-- `StandardScaler.transform` on fitted parameters: per feature,
subtract the mean and divide by the scale. -/
def scalerTransform (p : ScalerParams) (rows : List (Fin 4 → ℚ)) : List (Fin 4 → ℚ) :=
  rows.map (fun r j => (r j - p.mean j) / p.scale j)

/-- The errors the embedded `SleepLSTMModel` methods can raise:
the length `ValueError` of `predict_realtime` (line 252), the trained-check
`ValueError` of `predict` (line 207), sklearn's `NotFittedError` from
`scaler.transform` on a never-fitted scaler, and the `AttributeError`
from calling `.predict` on `model = None`. -/
inductive ModelErr where
  | needSamples
  | notTrained
  | notFitted
  | noModel
deriving DecidableEq, Repr

/-- State of a `SleepLSTMModel` instance: `sequence_length` from
`__init__`, the `is_trained` flag, the Keras model (`None` until built or
loaded; its final `Dense(4, softmax)` layer fixes the output arity at 4,
so a loaded network is a map from a list of feature rows to a 4-vector),
and the scaler (`none` models a never-fitted `StandardScaler`). -/
structure Artifact where
  sequence_length : ℕ
  is_trained : Bool
  model : Option (List (Fin 4 → ℚ) → Fin 4 → ℚ)
  scaler : Option ScalerParams

/-- The probabilities dict `{'awake': p[0], 'light': p[1], 'deep': p[2],
'rem': p[3]}` built at `lstm_model.py:231-236` and `271-276`. -/
structure Probs where
  pAwake : ℚ
  pLight : ℚ
  pDeep : ℚ
  pRem : ℚ
deriving DecidableEq, Repr

/-- A `Probs` dict as the positional 4-vector it was built from. -/
def Probs.vec (P : Probs) : Fin 4 → ℚ := ![P.pAwake, P.pLight, P.pDeep, P.pRem]

/-- Build the probabilities dict from a network output vector. -/
def mkProbs (p : Fin 4 → ℚ) : Probs := ⟨p 0, p 1, p 2, p 3⟩

/-- `self.phase_map` (`lstm_model.py:31-36`): 0 ↦ awake, 1 ↦ light,
2 ↦ deep, 3 ↦ rem. -/
def phaseMap : Fin 4 → SleepPhase := ![.awake, .light, .deep, .rem]

/-- `np.argmax` on a 4-vector of rationals: the first index attaining the
maximum (numpy's tie-breaking rule). -/
def argmax4 (p : Fin 4 → ℚ) : Fin 4 :=
  if p 1 ≤ p 0 ∧ p 2 ≤ p 0 ∧ p 3 ≤ p 0 then 0
  else if p 2 ≤ p 1 ∧ p 3 ≤ p 1 then 1
  else if p 3 ≤ p 2 then 2
  else 3

/-- The dict returned by `SleepLSTMModel.predict_realtime`
(`lstm_model.py:268-277`). -/
structure Prediction where
  phase : SleepPhase
  confidence : ℚ
  probabilities : Probs
deriving DecidableEq, Repr

/-- One entry of the list returned by `SleepLSTMModel.predict`
(`lstm_model.py:227-237`). -/
structure BatchPrediction where
  timestamp_index : ℕ
  phase : SleepPhase
  confidence : ℚ
  probabilities : Probs
deriving DecidableEq, Repr

/-- Python's `xs[-n:]` for `n ≤ len(xs)`: the last `n` elements. -/
def lastN (n : ℕ) (xs : List α) : List α := xs.drop (xs.length - n)

/-- `SleepLSTMModel.predict_realtime` (`lstm_model.py:241-277`): length
guard, slice to the most recent `sequence_length` samples, feature
preparation, scaling, network forward pass, then argmax. Note the method
performs NO `is_trained` check. -/
def predict_realtime (art : Artifact) (recent_data : List Sample3) :
    Except ModelErr Prediction :=
  if recent_data.length < art.sequence_length then .error .needSamples
  else
    let recent_sequence := lastN art.sequence_length recent_data
    let features := prepare_features recent_sequence
    match art.scaler with
    | none => .error .notFitted
    | some sp =>
      let features_scaled := scalerTransform sp features
      match art.model with
      | none => .error .noModel
      | some net =>
        let prediction := net features_scaled
        let phase_idx := argmax4 prediction
        .ok { phase := phaseMap phase_idx
              confidence := prediction phase_idx
              probabilities := mkProbs prediction }

/-- `SleepLSTMModel.predict` (`lstm_model.py:196-239`): trained check
first, then features, scaling, `create_sequences`, a per-sequence forward
pass and argmax; entry `i` carries `timestamp_index = i + sequence_length`. -/
def predict (art : Artifact) (accel_data : List Sample3) :
    Except ModelErr (List BatchPrediction) :=
  if art.is_trained = false then .error .notTrained
  else
    let features := prepare_features accel_data
    match art.scaler with
    | none => .error .notFitted
    | some sp =>
      let features_scaled := scalerTransform sp features
      let sequences := create_sequences art.sequence_length features_scaled
      match art.model with
      | none => .error .noModel
      | some net =>
        .ok (sequences.mapIdx (fun i seq =>
          let pred := net seq
          let phase_idx := argmax4 pred
          { timestamp_index := i + art.sequence_length
            phase := phaseMap phase_idx
            confidence := pred phase_idx
            probabilities := mkProbs pred }))

/-! ### The HTTP layer around the model (`backend/main.py`) -/

/-- The HTTP errors of the realtime endpoint: the 400 raised for fewer
than 60 samples (`main.py:180-184`) and the 500 wrapping a prediction
exception (`main.py:204-205`). -/
inductive ApiErr where
  | badRequest400
  | internalError500
deriving DecidableEq, Repr

/-- The JSON body returned by `POST /realtime/predict` (`main.py:197-203`
and `224-235`); the wall-clock `timestamp` field is omitted from the
embedding. -/
structure RtResponse where
  current_phase : SleepPhase
  confidence : ℚ
  probabilities : Probs
  is_light_sleep : Bool
deriving DecidableEq, Repr

/-- Mean of a list of rationals (`np.mean`). -/
def listMean (xs : List ℚ) : ℚ := xs.sum / (xs.length : ℚ)

/-- The fallback branch of `predict_current_phase` (`main.py:207-235`):
the mean movement magnitude over the 60-sample window is compared against
the thresholds in the source's `if/elif` order, and the response carries a
fixed confidence of 0.7 and uniform probabilities 0.25. -/
def fallbackResponse (movements : List ℚ) : RtResponse :=
  let avg_movement := listMean movements
  let phase :=
    if avg_movement > 0.4 then SleepPhase.awake
    else if avg_movement < 0.08 then SleepPhase.deep
    else if avg_movement > 0.15 then SleepPhase.light
    else SleepPhase.rem
  { current_phase := phase
    confidence := 0.7
    probabilities := ⟨0.25, 0.25, 0.25, 0.25⟩
    is_light_sleep := decide (phase = SleepPhase.light) }

/-- `predict_current_phase` (`main.py:174-235`): the 60-sample guard, then
either the model path (slice the last 60 samples, call `predict_realtime`,
wrap exceptions as a 500) or — when the model is unavailable or untrained —
the rule-based fallback; `lstmAvailable` models the module-level
`LSTM_AVAILABLE` flag. -/
def predict_current_phase (lstmAvailable : Bool) (art : Artifact)
    (sensor_data : List Sample3) : Except ApiErr RtResponse :=
  if sensor_data.length < 60 then .error .badRequest400
  else if lstmAvailable && art.is_trained then
    let recent_data := lastN 60 sensor_data
    match predict_realtime art recent_data with
    | .error _ => .error .internalError500
    | .ok p =>
      .ok { current_phase := p.phase
            confidence := p.confidence
            probabilities := p.probabilities
            is_light_sleep := decide (p.phase = SleepPhase.light) }
  else
    .ok (fallbackResponse ((lastN 60 sensor_data).map
      (fun d => magnitude d.1 d.2.1 d.2.2)))

/-! ### Full-session fallback classifier (`main.py:252-289`) -/

/-- One entry of the phase timeline built by `classify_sleep_phases`
(`main.py:282-287`); `movement_std = np.std(window)` is the square root of
the population variance. -/
structure PhaseEntry where
  timestamp : ℕ
  phase : SleepPhase
  movement : ℚ
  movement_std : ℚ
deriving DecidableEq, Repr

/-- Population variance of a list (`np.std` squared). -/
def listVar (xs : List ℚ) : ℚ :=
  (xs.map (fun x => (x - listMean xs) ^ 2)).sum / (xs.length : ℚ)

/-- `np.max` of a nonempty rational list (junk value 0 on `[]`,
unreachable in the guarded call sites). -/
def listMaxQ (xs : List ℚ) : ℚ :=
  match xs with
  | [] => 0
  | x :: r => r.foldl max x

/-- The loop body of `classify_sleep_phases` (`main.py:262-287`): the
window statistics, the threshold classification (`np.std` modelled as
`Rat.sqrt` of the population variance) and the appended dict. -/
def classifyEntry (i : ℕ) (window : List ℚ) : PhaseEntry :=
  let avg_movement := listMean window
  let std_movement := Rat.sqrt (listVar window)
  let max_movement := listMaxQ window
  let phase :=
    if avg_movement > 0.4 ∨ max_movement > 0.8 then SleepPhase.awake
    else if avg_movement < 0.08 ∧ std_movement < 0.03 then SleepPhase.deep
    else if avg_movement > 0.15 ∧ std_movement > 0.05 then SleepPhase.light
    else SleepPhase.rem
  { timestamp := i
    phase := phase
    movement := avg_movement
    movement_std := std_movement }

/-- `classify_sleep_phases` (`main.py:252-289`): iterate
`for i in range(0, len(movements), 30)`, take `movements[i:i+30]`, skip
empty windows (never hit for indices below the length), classify by the
threshold rules and record `timestamp = i`. -/
def classify_sleep_phases (movements : List ℚ) : List PhaseEntry :=
  (pyRangeIdx movements.length 30).filterMap (fun i =>
    let window := (movements.drop i).take 30
    if window.length = 0 then none
    else some (classifyEntry i window))

/-! ### Sleep score (`main.py:298-356`) -/

/-- Round to the nearest integer, halves to the even neighbour — the
rounding used by Python's builtin `round`. -/
def roundHalfEven (q : ℚ) : ℤ :=
  let f := ⌊q⌋
  let r := q - (f : ℚ)
  if r < 1 / 2 then f
  else if 1 / 2 < r then f + 1
  else if f % 2 = 0 then f else f + 1

/-- Python `round(x, 2)`. -/
def pyRound2 (q : ℚ) : ℚ := (roundHalfEven (q * 100) : ℚ) / 100

/-- Deep-sleep sub-score (`main.py:321-326`). -/
def deepScore (deep_pct : ℚ) : ℚ :=
  if 0.15 ≤ deep_pct ∧ deep_pct ≤ 0.25 then 25
  else if deep_pct > 0.25 then max 0 (25 - (deep_pct - 0.25) * 50)
  else deep_pct / 0.15 * 25

/-- REM sub-score (`main.py:329-334`). -/
def remScore (rem_pct : ℚ) : ℚ :=
  if 0.20 ≤ rem_pct ∧ rem_pct ≤ 0.25 then 25
  else if rem_pct > 0.25 then max 0 (25 - (rem_pct - 0.25) * 50)
  else rem_pct / 0.20 * 25

/-- Light-sleep sub-score (`main.py:337-340`). -/
def lightScore (light_pct : ℚ) : ℚ :=
  if 0.45 ≤ light_pct ∧ light_pct ≤ 0.55 then 20
  else max 0 (20 - |light_pct - 0.50| * 40)

/-- Duration sub-score (`main.py:343-348`). -/
def durationScore (duration : ℚ) : ℚ :=
  if 7 ≤ duration ∧ duration ≤ 9 then 20
  else if duration < 7 then max 0 (duration / 7 * 20)
  else max 0 (20 - (duration - 9) * 5)

/-- The score `calculate_sleep_score` computes from the four phase
percentages and the duration (`main.py:320-356`): sub-scores, awake
penalty `min(awake_pct*100, 10)`, clamp to `[0,100]`, round to 2 decimals. -/
def scoreFromPcts (deep_pct light_pct rem_pct awake_pct duration : ℚ) : ℚ :=
  let score := deepScore deep_pct + remScore rem_pct + lightScore light_pct
    + durationScore duration - min (awake_pct * 100) 10
  pyRound2 (max 0 (min 100 score))

/-- Fraction of `phases` labelled `ph`. -/
def phasePct (ph : SleepPhase) (phases : List SleepPhase) : ℚ :=
  (phases.count ph : ℚ) / (phases.length : ℚ)

/-- `calculate_sleep_score` (`main.py:298-356`); a phase-timeline entry is
represented by its phase label, the only field the function reads. -/
def calculate_sleep_score (phases : List SleepPhase) (duration : ℚ) : ℚ :=
  if duration = 0 ∨ phases.length = 0 then 0
  else
    scoreFromPcts (phasePct .deep phases) (phasePct .light phases)
      (phasePct .rem phases) (phasePct .awake phases) duration

/-- Modelled from the spec: the deep sub-score as the claim words it
("25 in [0.15,0.25], ramp deep_pct/0.15*25 below, penalty 50 per unit
fraction above, floored at 0"); for the refinement comparison with
`deepScore`. -/
def specDeepScore (p : ℚ) : ℚ :=
  if p < 0.15 then p / 0.15 * 25
  else if p ≤ 0.25 then 25
  else max 0 (25 - (p - 0.25) * 50)

/-- Modelled from the spec: the REM sub-score ("same shape with band
[0.20,0.25]"). -/
def specRemScore (p : ℚ) : ℚ :=
  if p < 0.20 then p / 0.20 * 25
  else if p ≤ 0.25 then 25
  else max 0 (25 - (p - 0.25) * 50)

/-- Modelled from the spec: the light sub-score ("20 in [0.45,0.55] else
max(0, 20 - |light_pct-0.50|*40)"). -/
def specLightScore (p : ℚ) : ℚ :=
  if 0.45 ≤ p ∧ p ≤ 0.55 then 20
  else max 0 (20 - |p - 0.50| * 40)

/-- Modelled from the spec: the duration sub-score ("20 in [7,9] hours,
duration/7*20 below, 20-(duration-9)*5 floored at 0 above"). -/
def specDurationScore (d : ℚ) : ℚ :=
  if d < 7 then d / 7 * 20
  else if d ≤ 9 then 20
  else max 0 (20 - (d - 9) * 5)

/-- Modelled from the spec: the whole score as the claim words it —
`clamp(deep + rem + light + duration - min(awake_pct*100, 10), 0, 100)`
rounded to 2 decimals, percentages taken over the phase list. -/
def specSleepScore (phases : List SleepPhase) (duration : ℚ) : ℚ :=
  pyRound2 (max 0 (min 100
    (specDeepScore (phasePct .deep phases)
      + specRemScore (phasePct .rem phases)
      + specLightScore (phasePct .light phases)
      + specDurationScore duration
      - min (phasePct .awake phases * 100) 10)))

/-! ### Recommendations (`main.py:367-419`) -/

/-- The overall-score message (`main.py:382-389`): exactly one of four
messages, chosen by the score range. -/
def overallMsg (score : ℚ) : String :=
  if score ≥ 85 then "🌟 Excellent sleep! You're getting high-quality rest."
  else if score ≥ 70 then "😊 Good sleep quality. Minor improvements can make it even better."
  else if score ≥ 50 then "😐 Fair sleep. Several areas could be improved for better rest."
  else "😟 Poor sleep quality. Consider consulting a sleep specialist."

/-- The deep-sleep rule (`main.py:392-395`): zero or one message. -/
def deepMsgs (deep_pct : ℚ) : List String :=
  if deep_pct < 0.13 then
    ["💤 Low deep sleep detected. Try: regular exercise, cooler room (60-67°F), avoid alcohol before bed."]
  else if deep_pct > 0.30 then
    ["⚠️ Unusually high deep sleep. This might indicate sleep debt recovery."]
  else []

/-- The REM rule (`main.py:398-401`): zero or one message. -/
def remMsgs (rem_pct : ℚ) : List String :=
  if rem_pct < 0.15 then
    ["🧠 Low REM sleep. Try: consistent sleep schedule, reduce alcohol, manage stress before bed."]
  else if rem_pct > 0.30 then
    ["💭 High REM sleep percentage. This is normal during recovery or stress periods."]
  else []

/-- The awake rule (`main.py:404-407`): zero or one message. -/
def awakeMsgs (awake_pct : ℚ) : List String :=
  if awake_pct > 0.10 then
    ["🌙 Frequent awakenings detected. Minimize: noise, light, temperature fluctuations, screen time before bed."]
  else if awake_pct > 0.05 then
    ["👍 Some awakenings are normal, but try to minimize bedroom disruptions."]
  else []

/-- The light-sleep rule (`main.py:410-413`): zero or one message. -/
def lightMsgs (light_pct : ℚ) : List String :=
  if light_pct < 0.35 then
    ["⚡ Low light sleep. This might indicate interrupted sleep cycles."]
  else if light_pct > 0.65 then
    ["📊 High light sleep percentage. Focus on deep sleep quality: exercise, reduce stress, optimize temperature."]
  else []

/-- The closing general-tips rule (`main.py:416-417`): one message iff
`score < 70`. -/
def tipsMsgs (score : ℚ) : List String :=
  if score < 70 then
    ["✨ General tips: Keep consistent sleep schedule, dark & cool room, limit caffeine after 2 PM."]
  else []

/-- `generate_recommendations` (`main.py:367-419`): the empty-input early
return, then the sequential appends in source order — overall score,
deep, REM, awake, light, general tips. -/
def generate_recommendations (score : ℚ) (phases : List SleepPhase) : List String :=
  if phases.length = 0 then ["Not enough data to generate recommendations."]
  else
    let deep_pct := phasePct .deep phases
    let light_pct := phasePct .light phases
    let rem_pct := phasePct .rem phases
    let awake_pct := phasePct .awake phases
    let recommendations : List String := []
    let recommendations := recommendations ++ [overallMsg score]
    let recommendations := recommendations ++ deepMsgs deep_pct
    let recommendations := recommendations ++ remMsgs rem_pct
    let recommendations := recommendations ++ awakeMsgs awake_pct
    let recommendations := recommendations ++ lightMsgs light_pct
    let recommendations := recommendations ++ tipsMsgs score
    recommendations

/-! ### Helper lemmas: windowing -/

lemma pyRangeIdx_length (stop step : ℕ) :
    (pyRangeIdx stop step).length = (stop + step - 1) / step := by
  simp [pyRangeIdx]

lemma pyRangeIdx_getElem (stop step k : ℕ) (h : k < (pyRangeIdx stop step).length) :
    (pyRangeIdx stop step)[k] = k * step := by
  simp [pyRangeIdx]

/-- Every index produced by `range(0, stop, step)` is below `stop`. -/
lemma mul_lt_of_lt_pyCeil {k M s : ℕ} (hs : 0 < s) (hk : k < (M + s - 1) / s) :
    k * s < M := by
  rcases Nat.eq_zero_or_pos M with hM | hM
  · subst hM
    have : (0 + s - 1) / s = 0 := Nat.div_eq_of_lt (by omega)
    omega
  · have h1 : k + 1 ≤ (M + s - 1) / s := hk
    have h2 : (k + 1) * s ≤ (M + s - 1) / s * s := Nat.mul_le_mul_right s h1
    have h3 : (M + s - 1) / s * s ≤ M + s - 1 := Nat.div_mul_le_self _ s
    have h4 : k * s + s ≤ M + s - 1 := by
      have : (k + 1) * s = k * s + s := by ring
      omega
    omega

/-! ### Claim C1 -/

/-- Claim C1 (amended): for window size `w` and step `s > 0` the
`train_final.py` sliding-window loop produces exactly
`⌈(N - w) / s⌉ = (N - w + s - 1) / s` windows — one fewer than the claimed
`⌊(N - w) / s⌋ + 1` whenever `s` divides `N - w`, in particular zero
windows when `N = w`; each produced window is exactly the `w` consecutive
feature vectors starting at index `k * s`.  The LSTM sequence builder
`create_sequences` (step 1) produces `N - 60` sequences, not `N - 60 + 1`,
each being the 60 consecutive vectors starting at its index. -/
theorem c1_windower_counts {α : Type} (features : List α) (w s : ℕ) (hs : 0 < s) :
    (slidingWindows w s features).length = (features.length - w + s - 1) / s ∧
    (features.length ≤ w → slidingWindows w s features = []) ∧
    (∀ k (h : k < (slidingWindows w s features).length),
        (slidingWindows w s features)[k] = (features.drop (k * s)).take w ∧
        ((slidingWindows w s features)[k]).length = w) ∧
    (create_sequences 60 features).length = features.length - 60 ∧
    (∀ k (h : k < (create_sequences 60 features).length),
        (create_sequences 60 features)[k] = (features.drop k).take 60) := by
  refine ⟨?_, ?_, ?_, ?_, ?_⟩
  · simp [slidingWindows, pyRangeIdx]
  · intro hle
    have h0 : features.length - w = 0 := by omega
    have h1 : (0 + s - 1) / s = 0 := Nat.div_eq_of_lt (by omega)
    unfold slidingWindows pyRangeIdx
    rw [h0, h1]
    simp
  · intro k h
    have hlen : k < (pyRangeIdx (features.length - w) s).length := by
      simpa [slidingWindows] using h
    have hidx : k * s < features.length - w := by
      refine mul_lt_of_lt_pyCeil hs ?_
      simpa [pyRangeIdx_length] using hlen
    constructor
    · simp [slidingWindows, pyRangeIdx]
    · have : (slidingWindows w s features)[k] = (features.drop (k * s)).take w := by
        simp [slidingWindows, pyRangeIdx]
      rw [this, List.length_take, List.length_drop]
      omega
  · simp [create_sequences]
  · intro k h
    simp [create_sequences]

/-- Claim C1 counterexample: with `N = 60` samples and step 1 the claim
predicts `N - 60 + 1 = 1` sequence but `create_sequences` produces 0;
with `N = 120`, `w = 60`, `s = 60` the claim predicts `N // 60 = 2`
windows but the `train_final.py` loop produces 1. -/
theorem c1_counterexample :
    (create_sequences 60 (List.replicate 60 (0 : ℕ))).length = 0 ∧
    (60 : ℕ) - 60 + 1 = 1 ∧
    (slidingWindows 60 60 (List.replicate 120 (0 : ℕ))).length = 1 ∧
    (120 : ℕ) / 60 = 2 := by
  refine ⟨by decide, by decide, by decide, by decide⟩

/-- Witness for `c1_windower_counts` at a concrete input. -/
theorem c1_windower_counts_witness :
    (slidingWindows 2 1 ([0, 1, 2] : List ℕ)).length = (3 - 2 + 1 - 1) / 1 :=
  (c1_windower_counts [0, 1, 2] 2 1 (by decide)).1

/-! ### Helper lemmas: `np.bincount(...).argmax()` -/

lemma le_listMaxN {a : ℕ} {xs : List ℕ} (h : a ∈ xs) : a ≤ listMaxN xs := by
  induction xs with
  | nil => simp at h
  | cons x l ih =>
    rcases List.mem_cons.1 h with rfl | h'
    · exact le_max_left _ _
    · exact le_trans (ih h') (le_max_right _ _)

lemma listMaxN_mem {xs : List ℕ} (h : xs ≠ []) : listMaxN xs ∈ xs := by
  induction xs with
  | nil => simp at h
  | cons x l ih =>
    rcases eq_or_ne l [] with rfl | hl
    · simp [listMaxN]
    · have hm := ih hl
      simp only [listMaxN, List.foldr_cons] at *
      rcases le_total (l.foldr max 0) x with h1 | h1
      · rw [max_eq_left h1]; exact List.mem_cons_self x l
      · rw [max_eq_right h1]; exact List.mem_cons_of_mem x hm

lemma bincount_length (xs : List ℕ) : (bincount xs).length = listMaxN xs + 1 := by
  simp [bincount]

lemma bincount_getElem (xs : List ℕ) (i : ℕ) (h : i < (bincount xs).length) :
    (bincount xs)[i] = xs.count i := by
  simp [bincount]

lemma count_eq_zero_of_maxN_lt {xs : List ℕ} {l : ℕ} (h : listMaxN xs < l) :
    xs.count l = 0 := by
  rw [List.count_eq_zero]
  intro hmem
  exact absurd (le_listMaxN hmem) (by omega)

lemma majorityLabel_count_eq {xs : List ℕ} (_hne : xs ≠ []) :
    majorityLabel xs < (bincount xs).length ∧
    xs.count (majorityLabel xs) = listMaxN (bincount xs) := by
  have hbne : bincount xs ≠ [] := by
    have := bincount_length xs
    intro hnil
    rw [hnil] at this
    simp at this
  have hmem : listMaxN (bincount xs) ∈ bincount xs := listMaxN_mem hbne
  have hex : ∃ v ∈ bincount xs, (v == listMaxN (bincount xs)) = true :=
    ⟨_, hmem, by simp⟩
  have hlt : (bincount xs).findIdx (fun v => v == listMaxN (bincount xs)) <
      (bincount xs).length := List.findIdx_lt_length_of_exists hex
  refine ⟨hlt, ?_⟩
  have hp := List.findIdx_getElem (w := hlt)
  have heq : (bincount xs)[(bincount xs).findIdx
      (fun v => v == listMaxN (bincount xs))] = listMaxN (bincount xs) := by
    simpa using hp
  have := bincount_getElem xs (majorityLabel xs)
    (by simpa [majorityLabel, npArgmaxN] using hlt)
  simp only [majorityLabel, npArgmaxN] at *
  rw [← this, heq]

/-! ### Claim C2 -/

/-- Claim C2: the window label assigned by
`np.bincount(labels).argmax()` (`train_final.py:42`,
`sleep_classifier.py:106`) is a member label whose count is maximal, and
every label smaller than it has strictly smaller count (so ties go to the
lowest-numbered label); in particular `[0,0,1,1,1]` yields 1 and the tied
`[0,0,1,1]` yields 0. -/
theorem c2_majority_vote :
    (∀ xs : List ℕ, xs ≠ [] → (∀ l ∈ xs, l ≤ 3) →
      majorityLabel xs ∈ xs ∧
      (∀ l : ℕ, xs.count l ≤ xs.count (majorityLabel xs)) ∧
      (∀ l : ℕ, l < majorityLabel xs → xs.count l < xs.count (majorityLabel xs))) ∧
    majorityLabel [0, 0, 1, 1, 1] = 1 ∧ majorityLabel [0, 0, 1, 1] = 0 := by
  refine ⟨?_, by decide, by decide⟩
  intro xs hne _
  obtain ⟨hlt, hcnt⟩ := majorityLabel_count_eq hne
  have hle : ∀ l : ℕ, xs.count l ≤ xs.count (majorityLabel xs) := by
    intro l
    rcases Nat.lt_or_ge l (bincount xs).length with hl | hl
    · have hmem : xs.count l ∈ bincount xs := by
        rw [← bincount_getElem xs l hl]
        exact List.getElem_mem _
      exact hcnt ▸ le_listMaxN hmem
    · have : listMaxN xs < l := by
        have := bincount_length xs
        omega
      rw [count_eq_zero_of_maxN_lt this]
      exact Nat.zero_le _
  refine ⟨?_, hle, ?_⟩
  · obtain ⟨x0, hx0⟩ := List.exists_mem_of_ne_nil xs hne
    have h1 : 0 < xs.count x0 := List.count_pos_iff.2 hx0
    have h2 : 0 < xs.count (majorityLabel xs) := lt_of_lt_of_le h1 (hle x0)
    exact List.count_pos_iff.1 h2
  · intro l hlm
    have hll : l < (bincount xs).length := lt_trans hlm hlt
    have hlm' : l < (bincount xs).findIdx (fun v => v == listMaxN (bincount xs)) := by
      simpa [majorityLabel, npArgmaxN] using hlm
    have hne' := List.not_of_lt_findIdx hlm'
    have : (bincount xs)[l] ≠ listMaxN (bincount xs) := by simpa using hne'
    rw [bincount_getElem xs l hll] at this
    exact lt_of_le_of_ne (hle l) (by rw [hcnt]; exact this)

/-- Witness for `c2_majority_vote` at the concrete window `[2, 2, 3]`. -/
theorem c2_majority_vote_witness : majorityLabel [2, 2, 3] ∈ [2, 2, 3] :=
  (c2_majority_vote.1 [2, 2, 3] (by decide) (by decide)).1

/-! ### Claim C10 -/

lemma filterMap_eq_map_of {α β : Type} (l : List α) (f : α → Option β) (g : α → β)
    (h : ∀ a ∈ l, f a = some (g a)) : l.filterMap f = l.map g := by
  induction l with
  | nil => simp
  | cons x t ih =>
    rw [List.filterMap_cons, h x (List.mem_cons_self x t), List.map_cons,
      ih (fun a ha => h a (List.mem_cons_of_mem x ha))]

lemma classify_sleep_phases_eq_map (movements : List ℚ) :
    classify_sleep_phases movements = (pyRangeIdx movements.length 30).map
      (fun i => classifyEntry i ((movements.drop i).take 30)) := by
  refine filterMap_eq_map_of _ _ _ ?_
  intro i hi
  obtain ⟨k, hk, rfl⟩ : ∃ k, k < (movements.length + 30 - 1) / 30 ∧ k * 30 = i := by
    simp only [pyRangeIdx, List.mem_map, List.mem_range] at hi
    exact hi
  have hlt : k * 30 < movements.length := mul_lt_of_lt_pyCeil (by omega) hk
  have hwin : ((movements.drop (k * 30)).take 30).length ≠ 0 := by
    rw [List.length_take, List.length_drop]
    omega
  simp only [hwin, if_false, if_neg hwin]

/-- Claim C10: for every non-empty list of `N` movement magnitudes,
`classify_sleep_phases` returns exactly `⌈N/30⌉` windows, entry `k`
carrying timestamp `k * 30` (hence strictly increasing timestamps); the
final, possibly shorter window is classified rather than discarded (the
count is the ceiling, not the floor), and every returned phase is one of
the four `SleepPhase` values. -/
theorem c10_classify_sleep_phases (movements : List ℚ) (_hne : movements ≠ []) :
    (classify_sleep_phases movements).length = (movements.length + 29) / 30 ∧
    (∀ k (h : k < (classify_sleep_phases movements).length),
        ((classify_sleep_phases movements)[k]).timestamp = k * 30) ∧
    (∀ k (h1 : k < (classify_sleep_phases movements).length)
        (h2 : k + 1 < (classify_sleep_phases movements).length),
        ((classify_sleep_phases movements).get ⟨k, h1⟩).timestamp <
        ((classify_sleep_phases movements).get ⟨k + 1, h2⟩).timestamp) ∧
    (∀ e ∈ classify_sleep_phases movements,
        e.phase = SleepPhase.awake ∨ e.phase = SleepPhase.light ∨
        e.phase = SleepPhase.deep ∨ e.phase = SleepPhase.rem) := by
  have hmap := classify_sleep_phases_eq_map movements
  have hts : ∀ k (h : k < (classify_sleep_phases movements).length),
      ((classify_sleep_phases movements)[k]).timestamp = k * 30 := by
    intro k h
    have h' : k < (pyRangeIdx movements.length 30).length := by
      rw [hmap] at h
      simpa using h
    rw [List.getElem_of_eq hmap h]
    simp only [List.getElem_map]
    rw [pyRangeIdx_getElem _ _ _ h']
    rfl
  refine ⟨?_, hts, ?_, ?_⟩
  · rw [hmap]
    simp [pyRangeIdx]
  · intro k h1 h2
    simp only [List.get_eq_getElem]
    rw [hts k h1, hts (k + 1) h2]
    omega
  · intro e he
    rw [hmap] at he
    obtain ⟨i, _, rfl⟩ := List.mem_map.1 he
    simp only [classifyEntry]
    split_ifs <;> simp

/-- Witness for `c10_classify_sleep_phases` on a concrete 31-sample
session: 2 windows, timestamps 0 and 30. -/
theorem c10_classify_sleep_phases_witness :
    (classify_sleep_phases (List.replicate 31 (0 : ℚ))).length = (31 + 29) / 30 :=
  (c10_classify_sleep_phases (List.replicate 31 (0 : ℚ)) (by decide)).1

/-! ### Claim C3 -/

lemma deepScore_eq_spec (p : ℚ) : deepScore p = specDeepScore p := by
  unfold deepScore specDeepScore
  by_cases h1 : p < 0.15
  · rw [if_neg (fun hA => absurd hA.1 (not_le.2 h1)), if_neg (by linarith : ¬p > 0.25),
      if_pos h1]
  · by_cases h2 : p ≤ 0.25
    · rw [if_pos ⟨le_of_not_lt h1, h2⟩, if_neg h1, if_pos h2]
    · rw [if_neg (fun hA => absurd hA.2 h2), if_pos (by linarith : p > 0.25),
        if_neg h1, if_neg h2]

lemma remScore_eq_spec (p : ℚ) : remScore p = specRemScore p := by
  unfold remScore specRemScore
  by_cases h1 : p < 0.20
  · rw [if_neg (fun hA => absurd hA.1 (not_le.2 h1)), if_neg (by linarith : ¬p > 0.25),
      if_pos h1]
  · by_cases h2 : p ≤ 0.25
    · rw [if_pos ⟨le_of_not_lt h1, h2⟩, if_neg h1, if_pos h2]
    · rw [if_neg (fun hA => absurd hA.2 h2), if_pos (by linarith : p > 0.25),
        if_neg h1, if_neg h2]

lemma lightScore_eq_spec (p : ℚ) : lightScore p = specLightScore p := by
  unfold lightScore specLightScore
  split_ifs <;> rfl

lemma durationScore_eq_spec {d : ℚ} (hd : 0 < d) : durationScore d = specDurationScore d := by
  unfold durationScore specDurationScore
  by_cases h1 : d < 7
  · rw [if_neg (fun hF => absurd hF.1 (not_le.2 h1)), if_pos h1, if_pos h1]
    exact max_eq_right (by positivity)
  · by_cases h2 : d ≤ 9
    · rw [if_pos ⟨le_of_not_lt h1, h2⟩, if_neg h1, if_pos h2]
    · rw [if_neg (fun hF => absurd hF.2 h2), if_neg h1, if_neg h1, if_neg h2]

/-- Claim C3: for every non-empty phase list and positive duration,
`calculate_sleep_score` returns
`round2 (clamp (deep + rem + light + duration - min (awake_pct*100) 10) 0 100)`
with the sub-scores exactly as the spec words them (`specSleepScore`);
and the sub-score formula applied at `deep_pct = 0.20`, `rem_pct = 0.22`,
`light_pct = 0.50`, `awake_pct = 0`, `duration = 8` yields exactly 90. -/
theorem c3_sleep_score :
    (∀ (phases : List SleepPhase) (duration : ℚ), phases ≠ [] → 0 < duration →
      calculate_sleep_score phases duration = specSleepScore phases duration) ∧
    scoreFromPcts 0.20 0.50 0.22 0 8 = 90 := by
  constructor
  · intro phases duration hne hd
    have h0 : ¬(duration = 0 ∨ phases.length = 0) := by
      push_neg
      exact ⟨by linarith, by simpa using hne⟩
    rw [calculate_sleep_score, if_neg h0]
    unfold scoreFromPcts specSleepScore
    rw [deepScore_eq_spec, remScore_eq_spec, lightScore_eq_spec,
      durationScore_eq_spec hd]
  · norm_num [scoreFromPcts, deepScore, remScore, lightScore, durationScore,
      pyRound2, roundHalfEven]

/-- Witness for `c3_sleep_score` on a concrete session: 2 deep + 5 light
+ 2 rem + 1 awake windows, 8 hours. -/
theorem c3_sleep_score_witness :
    calculate_sleep_score
      (List.replicate 2 SleepPhase.deep ++ List.replicate 5 SleepPhase.light
        ++ List.replicate 2 SleepPhase.rem ++ [SleepPhase.awake]) 8 =
    specSleepScore
      (List.replicate 2 SleepPhase.deep ++ List.replicate 5 SleepPhase.light
        ++ List.replicate 2 SleepPhase.rem ++ [SleepPhase.awake]) 8 :=
  c3_sleep_score.1 _ 8 (by decide) (by norm_num)

/-! ### Claim C5 -/

/-- Claim C5: `generate_recommendations` returns, in this fixed order, the
overall-score message first, then the deep rule's message (if it fires),
then REM, then awake, then light, then the general-tips message appended
exactly when `score < 70`; each rule contributes zero or one message
independently of the others; and an empty phase list yields the single
insufficient-data message. -/
theorem c5_recommendations (score : ℚ) (phases : List SleepPhase) :
    (phases = [] → generate_recommendations score phases =
      ["Not enough data to generate recommendations."]) ∧
    (phases ≠ [] → generate_recommendations score phases =
      overallMsg score ::
        (deepMsgs (phasePct .deep phases) ++ remMsgs (phasePct .rem phases) ++
          awakeMsgs (phasePct .awake phases) ++ lightMsgs (phasePct .light phases) ++
          tipsMsgs score)) ∧
    (deepMsgs (phasePct .deep phases)).length ≤ 1 ∧
    (remMsgs (phasePct .rem phases)).length ≤ 1 ∧
    (awakeMsgs (phasePct .awake phases)).length ≤ 1 ∧
    (lightMsgs (phasePct .light phases)).length ≤ 1 ∧
    (tipsMsgs score).length ≤ 1 ∧
    (score < 70 → (tipsMsgs score).length = 1) ∧
    (¬score < 70 → tipsMsgs score = []) := by
  refine ⟨?_, ?_, ?_, ?_, ?_, ?_, ?_, ?_, ?_⟩
  · intro h
    simp [generate_recommendations, h]
  · intro h
    have h0 : ¬phases.length = 0 := by simpa using h
    simp only [generate_recommendations, if_neg h0, List.nil_append, List.append_assoc]
    rfl
  · unfold deepMsgs; split_ifs <;> simp
  · unfold remMsgs; split_ifs <;> simp
  · unfold awakeMsgs; split_ifs <;> simp
  · unfold lightMsgs; split_ifs <;> simp
  · unfold tipsMsgs; split_ifs <;> simp
  · intro h; simp [tipsMsgs, h]
  · intro h; simp [tipsMsgs, h]

/-- Witness for `c5_recommendations`: the empty-input case at score 50. -/
theorem c5_recommendations_witness :
    generate_recommendations 50 [] = ["Not enough data to generate recommendations."] :=
  (c5_recommendations 50 []).1 rfl

/-! ### Accessors used to state concrete counterexamples -/

/-- The phase of a realtime endpoint response, when it succeeded. -/
def rtPhase? (e : Except ApiErr RtResponse) : Option SleepPhase :=
  match e with
  | .ok r => some r.current_phase
  | .error _ => none

/-- The confidence of a realtime endpoint response, when it succeeded. -/
def rtConfidence? (e : Except ApiErr RtResponse) : Option ℚ :=
  match e with
  | .ok r => some r.confidence
  | .error _ => none

/-- The probabilities dict of a realtime endpoint response, when it
succeeded. -/
def rtProbs? (e : Except ApiErr RtResponse) : Option Probs :=
  match e with
  | .ok r => some r.probabilities
  | .error _ => none

/-- The error a `SleepLSTMModel` method raised, if any. -/
def modelErr? (e : Except ModelErr Prediction) : Option ModelErr :=
  match e with
  | .ok _ => none
  | .error err => some err

/-! ### Claim C6 -/

/-- Claim C6: the real-time estimate — both the endpoint
`predict_current_phase` and the method `predict_realtime` with
`sequence_length = 60` — fails with the insufficient-data error exactly
when fewer than 60 samples are supplied, and never for that reason at 60
or more; the window actually classified is the last-60 slice, whose
length is exactly 60 (no padding or truncation to a shorter window). -/
theorem c6_insufficient_data (b : Bool) (art : Artifact) (data : List Sample3)
    (hseq : art.sequence_length = 60) :
    (data.length < 60 → predict_current_phase b art data = .error .badRequest400) ∧
    (60 ≤ data.length → predict_current_phase b art data ≠ .error .badRequest400) ∧
    (data.length < 60 → predict_realtime art data = .error .needSamples) ∧
    (60 ≤ data.length → predict_realtime art data ≠ .error .needSamples) ∧
    (60 ≤ data.length → (lastN 60 data).length = 60) := by
  refine ⟨?_, ?_, ?_, ?_, ?_⟩
  · intro h
    rw [predict_current_phase, if_pos h]
  · intro h
    rw [predict_current_phase, if_neg (not_lt.2 h)]
    by_cases hb : (b && art.is_trained) = true
    · rw [if_pos hb]
      cases hpr : predict_realtime art (lastN 60 data) <;> simp [hpr]
    · rw [if_neg hb]
      simp
  · intro h
    rw [predict_realtime, hseq, if_pos h]
  · intro h
    rw [predict_realtime, hseq, if_neg (not_lt.2 h)]
    cases art.scaler <;> cases art.model <;> simp
  · intro h
    rw [lastN, List.length_drop]
    omega

/-- Witness for `c6_insufficient_data`: 59 samples yield the 400 error;
the hypothesis side is discharged on a concrete untrained artifact. -/
theorem c6_insufficient_data_witness :
    predict_current_phase false ⟨60, false, none, none⟩
      (List.replicate 59 ((0 : ℚ), 0, 0)) = .error .badRequest400 :=
  (c6_insufficient_data false ⟨60, false, none, none⟩
    (List.replicate 59 ((0 : ℚ), 0, 0)) rfl).1 (by simp)

/-! ### Claim C9 -/

/-- Claim C9: the real-time estimate depends only on the most recent 60
samples — two inputs of length ≥ 60 that agree on their last 60 samples
produce identical results, on the endpoint (model path and fallback path
alike, for every artifact) and on `predict_realtime` itself. -/
theorem c9_depends_only_on_last60 (b : Bool) (art : Artifact) (xs ys : List Sample3)
    (hseq : art.sequence_length = 60)
    (hx : 60 ≤ xs.length) (hy : 60 ≤ ys.length)
    (h : lastN 60 xs = lastN 60 ys) :
    predict_current_phase b art xs = predict_current_phase b art ys ∧
    predict_realtime art xs = predict_realtime art ys := by
  constructor
  · rw [predict_current_phase, predict_current_phase,
      if_neg (not_lt.2 hx), if_neg (not_lt.2 hy), h]
  · rw [predict_realtime, predict_realtime, hseq,
      if_neg (not_lt.2 hx), if_neg (not_lt.2 hy), lastN, lastN]
    rw [lastN, lastN] at h
    rw [h]

/-- Witness for `c9_depends_only_on_last60`: prepending an extra sample
does not change the fallback prediction. -/
theorem c9_depends_only_on_last60_witness :
    predict_current_phase false ⟨60, false, none, none⟩
      (((5 : ℚ), 5, 5) :: List.replicate 60 ((0 : ℚ), 0, 0)) =
    predict_current_phase false ⟨60, false, none, none⟩
      (List.replicate 60 ((0 : ℚ), 0, 0)) :=
  (c9_depends_only_on_last60 false ⟨60, false, none, none⟩ _ _ rfl
    (by simp) (by simp) (by simp [lastN])).1

/-! ### Claim C4 -/

/-- `np.sqrt` evaluation on perfect squares. -/
lemma magnitude_eval {x y z c : ℚ} (h : x ^ 2 + y ^ 2 + z ^ 2 = c * c) (hc : 0 ≤ c) :
    magnitude x y z = c := by
  rw [magnitude, h, Rat.sqrt_eq, abs_of_nonneg hc]

lemma listMean_replicate (n : ℕ) (a : ℚ) (hn : n ≠ 0) :
    listMean (List.replicate n a) = a := by
  rw [listMean, List.sum_replicate, List.length_replicate, nsmul_eq_mul]
  field_simp

/-- Claim C4 (amended): when no trained classifier is available the
endpoint returns the rule-based fallback over the mean magnitude of the
last 60 samples; the thresholds apply in the source's `if/elif`
precedence — mean > 0.4 ⇒ awake, else mean < 0.08 ⇒ deep, else
mean > 0.15 ⇒ light, else rem; and for 60 samples whose magnitude mean is
9.0 the fallback returns `awake` (not `deep`: the magnitude includes
gravity and the code removes no offset, so 9.0 > 0.4 hits the awake
branch first). -/
theorem c4_fallback_rules :
    (∀ (b : Bool) (art : Artifact) (data : List Sample3),
        60 ≤ data.length → (b && art.is_trained) = false →
        predict_current_phase b art data = .ok (fallbackResponse
          ((lastN 60 data).map (fun d => magnitude d.1 d.2.1 d.2.2)))) ∧
    (∀ movements : List ℚ,
        (listMean movements > 0.4 →
          (fallbackResponse movements).current_phase = SleepPhase.awake) ∧
        (listMean movements < 0.08 →
          (fallbackResponse movements).current_phase = SleepPhase.deep) ∧
        (0.15 < listMean movements → listMean movements ≤ 0.4 →
          (fallbackResponse movements).current_phase = SleepPhase.light) ∧
        (0.08 ≤ listMean movements → listMean movements ≤ 0.15 →
          (fallbackResponse movements).current_phase = SleepPhase.rem)) ∧
    ((List.replicate 60 ((9 : ℚ), 0, 0)).map
        (fun d => magnitude d.1 d.2.1 d.2.2) = List.replicate 60 (9 : ℚ)) ∧
    (fallbackResponse (List.replicate 60 (9 : ℚ))).current_phase = SleepPhase.awake := by
  refine ⟨?_, ?_, ?_, ?_⟩
  · intro b art data hlen hfb
    rw [predict_current_phase, if_neg (not_lt.2 hlen), if_neg (by simp [hfb])]
  · intro movements
    refine ⟨?_, ?_, ?_, ?_⟩
    · intro hm
      simp only [fallbackResponse]
      rw [if_pos hm]
    · intro hm
      simp only [fallbackResponse]
      rw [if_neg (by norm_num; linarith), if_pos hm]
    · intro hm1 hm2
      simp only [fallbackResponse]
      rw [if_neg (not_lt.2 hm2), if_neg (by norm_num; linarith), if_pos hm1]
    · intro hm1 hm2
      simp only [fallbackResponse]
      rw [if_neg (by norm_num; linarith), if_neg (by norm_num; linarith),
        if_neg (not_lt.2 hm2)]
  · have hmag : magnitude 9 0 0 = 9 := magnitude_eval (by norm_num) (by norm_num)
    simp [hmag]
  · have hmean : listMean (List.replicate 60 (9 : ℚ)) = 9 :=
      listMean_replicate 60 9 (by norm_num)
    simp only [fallbackResponse]
    rw [hmean, if_pos (by norm_num : (9 : ℚ) > 0.4)]

/-- Claim C4 counterexample: for the 60 samples `(9, 0, 0)` — magnitude
mean exactly 9.0 — the fallback path returns `awake`, not `deep` as the
claim states. -/
theorem c4_counterexample :
    rtPhase? (predict_current_phase false ⟨60, false, none, none⟩
      (List.replicate 60 ((9 : ℚ), 0, 0))) = some SleepPhase.awake ∧
    some SleepPhase.awake ≠ some SleepPhase.deep := by
  constructor
  · have hmag : magnitude 9 0 0 = 9 := magnitude_eval (by norm_num) (by norm_num)
    have hmean : listMean (List.replicate 60 (9 : ℚ)) = 9 :=
      listMean_replicate 60 9 (by norm_num)
    rw [predict_current_phase, if_neg (by simp), if_neg (by simp)]
    have hmap : (lastN 60 (List.replicate 60 ((9 : ℚ), 0, 0))).map
        (fun d => magnitude d.1 d.2.1 d.2.2) = List.replicate 60 (9 : ℚ) := by
      simp [lastN, hmag]
    rw [hmap, rtPhase?]
    simp only [fallbackResponse]
    rw [hmean, if_pos (by norm_num : (9 : ℚ) > 0.4)]
  · decide

/-- Witness for `c4_fallback_rules`: two samples of constant magnitude 1
yield mean 1 > 0.4, hence `awake`. -/
theorem c4_fallback_rules_witness :
    (fallbackResponse (List.replicate 2 (1 : ℚ))).current_phase = SleepPhase.awake :=
  (c4_fallback_rules.2.1 (List.replicate 2 (1 : ℚ))).1
    (by rw [listMean_replicate 2 1 (by norm_num)]; norm_num)

/-! ### Helper lemmas: `np.argmax` on a 4-vector -/

/-- The value at `argmax4` is maximal. -/
lemma argmax4_ge (p : Fin 4 → ℚ) : ∀ j, p j ≤ p (argmax4 p) := by
  intro j
  have hj : j = 0 ∨ j = 1 ∨ j = 2 ∨ j = 3 := by omega
  unfold argmax4
  split_ifs with h1 h2 h3
  · rcases hj with rfl | rfl | rfl | rfl
    · exact le_refl _
    · exact h1.1
    · exact h1.2.1
    · exact h1.2.2
  · rw [not_and_or, not_and_or] at h1
    simp only [not_le] at h1
    rcases hj with rfl | rfl | rfl | rfl <;>
      rcases h1 with h1 | h1 | h1 <;> linarith [h2.1, h2.2]
  · rw [not_and_or, not_and_or] at h1
    rw [not_and_or] at h2
    simp only [not_le] at h1 h2
    rcases hj with rfl | rfl | rfl | rfl <;>
      rcases h1 with h1 | h1 | h1 <;>
      rcases h2 with h2 | h2 <;> linarith [h3]
  · rw [not_and_or, not_and_or] at h1
    rw [not_and_or] at h2
    simp only [not_le] at h1 h2 h3
    rcases hj with rfl | rfl | rfl | rfl <;>
      rcases h1 with h1 | h1 | h1 <;>
      rcases h2 with h2 | h2 <;> linarith

/-- Every index strictly before `argmax4` has a strictly smaller value —
the first-occurrence tie rule of `np.argmax`. -/
lemma argmax4_lt_of_lt (p : Fin 4 → ℚ) (j : Fin 4) (h : j < argmax4 p) :
    p j < p (argmax4 p) := by
  unfold argmax4 at h ⊢
  split_ifs at h ⊢ with h1 h2 h3
  · exact absurd h (by omega)
  · have hj : j = 0 := by omega
    subst hj
    rw [not_and_or, not_and_or] at h1
    simp only [not_le] at h1
    rcases h1 with h1 | h1 | h1 <;> linarith [h2.1, h2.2]
  · have hj : j = 0 ∨ j = 1 := by omega
    rw [not_and_or, not_and_or] at h1
    rw [not_and_or] at h2
    simp only [not_le] at h1 h2
    rcases hj with rfl | rfl <;>
      rcases h1 with h1 | h1 | h1 <;>
      rcases h2 with h2 | h2 <;> linarith [h3]
  · have hj : j = 0 ∨ j = 1 ∨ j = 2 := by omega
    rw [not_and_or, not_and_or] at h1
    rw [not_and_or] at h2
    simp only [not_le] at h1 h2 h3
    rcases hj with rfl | rfl | rfl <;>
      rcases h1 with h1 | h1 | h1 <;>
      rcases h2 with h2 | h2 <;> linarith

/-- The probabilities dict built from a 4-vector reads back as that
vector. -/
lemma vec_mkProbs (p : Fin 4 → ℚ) : (mkProbs p).vec = p := by
  funext j
  have hj : j = 0 ∨ j = 1 ∨ j = 2 ∨ j = 3 := by omega
  rcases hj with rfl | rfl | rfl | rfl <;> rfl

/-- Inversion for a successful `predict_realtime`: the result is built
from some network output vector `q` as
`{phase := phaseMap (argmax4 q), confidence := q (argmax4 q), probabilities := mkProbs q}`. -/
lemma predict_realtime_ok {art : Artifact} {recent : List Sample3} {pr : Prediction}
    (h : predict_realtime art recent = .ok pr) :
    ∃ q : Fin 4 → ℚ, pr = ⟨phaseMap (argmax4 q), q (argmax4 q), mkProbs q⟩ := by
  rw [predict_realtime] at h
  by_cases hg : recent.length < art.sequence_length
  · rw [if_pos hg] at h
    exact absurd h (by simp)
  · rw [if_neg hg] at h
    cases hsc : art.scaler with
    | none =>
      rw [hsc] at h
      exact absurd h (by simp)
    | some sp =>
      rw [hsc] at h
      cases hm : art.model with
      | none =>
        rw [hm] at h
        exact absurd h (by simp)
      | some net =>
        rw [hm] at h
        simp only [Except.ok.injEq] at h
        exact ⟨net (scalerTransform sp (prepare_features
          (lastN art.sequence_length recent))), h.symm⟩

/-- Evaluation of `predict_realtime` on a fully-populated artifact with
enough samples. -/
lemma predict_realtime_eval (seq : ℕ) (tr : Bool)
    (net : List (Fin 4 → ℚ) → Fin 4 → ℚ) (sp : ScalerParams)
    (recent : List Sample3) (h : ¬recent.length < seq) :
    predict_realtime ⟨seq, tr, some net, some sp⟩ recent =
      .ok ⟨phaseMap (argmax4 (net (scalerTransform sp (prepare_features (lastN seq recent))))),
           net (scalerTransform sp (prepare_features (lastN seq recent)))
             (argmax4 (net (scalerTransform sp (prepare_features (lastN seq recent))))),
           mkProbs (net (scalerTransform sp (prepare_features (lastN seq recent))))⟩ := by
  rw [predict_realtime, if_neg h]

/-! ### Claim C7 -/

/-- Claim C7 (amended): every Prediction from the MODEL path
(`predict_realtime`, and the endpoint when a trained model is used)
satisfies `phase = phaseMap (argmax4 probabilities)` with ties broken
toward the lowest class index, and
`confidence = probabilities[argmax(probabilities)]`.  The FALLBACK path
does not: it always returns fixed confidence 0.7 and uniform
probabilities 0.25. -/
theorem c7_phase_argmax :
    (∀ (art : Artifact) (recent : List Sample3) (pr : Prediction),
        predict_realtime art recent = Except.ok pr →
        pr.phase = phaseMap (argmax4 pr.probabilities.vec) ∧
        pr.confidence = pr.probabilities.vec (argmax4 pr.probabilities.vec) ∧
        (∀ j, pr.probabilities.vec j ≤
            pr.probabilities.vec (argmax4 pr.probabilities.vec)) ∧
        (∀ j, j < argmax4 pr.probabilities.vec →
            pr.probabilities.vec j <
              pr.probabilities.vec (argmax4 pr.probabilities.vec))) ∧
    (∀ (b : Bool) (art : Artifact) (data : List Sample3) (r : RtResponse),
        (b && art.is_trained) = true →
        predict_current_phase b art data = Except.ok r →
        r.current_phase = phaseMap (argmax4 r.probabilities.vec) ∧
        r.confidence = r.probabilities.vec (argmax4 r.probabilities.vec)) ∧
    (∀ (b : Bool) (art : Artifact) (data : List Sample3) (r : RtResponse),
        (b && art.is_trained) = false →
        predict_current_phase b art data = Except.ok r →
        r.confidence = 0.7 ∧ r.probabilities = ⟨0.25, 0.25, 0.25, 0.25⟩) := by
  refine ⟨?_, ?_, ?_⟩
  · intro art recent pr h
    obtain ⟨q, rfl⟩ := predict_realtime_ok h
    refine ⟨by simp [vec_mkProbs], by simp [vec_mkProbs], ?_, ?_⟩
    · simp only [vec_mkProbs]
      exact argmax4_ge q
    · simp only [vec_mkProbs]
      exact argmax4_lt_of_lt q
  · intro b art data r hb h
    simp only [predict_current_phase] at h
    by_cases hlen : data.length < 60
    · rw [if_pos hlen] at h
      exact absurd h (by simp)
    · rw [if_neg hlen, if_pos hb] at h
      cases hpr : predict_realtime art (lastN 60 data) with
      | error e =>
        rw [hpr] at h
        exact absurd h (by simp)
      | ok p =>
        rw [hpr] at h
        obtain ⟨q, rfl⟩ := predict_realtime_ok hpr
        simp only [Except.ok.injEq] at h
        subst h
        refine ⟨by simp [vec_mkProbs], by simp [vec_mkProbs]⟩
  · intro b art data r hb h
    simp only [predict_current_phase] at h
    by_cases hlen : data.length < 60
    · rw [if_pos hlen] at h
      exact absurd h (by simp)
    · rw [if_neg hlen, if_neg (by simp [hb])] at h
      simp only [Except.ok.injEq] at h
      subst h
      exact ⟨rfl, rfl⟩

/-- Claim C7 counterexample: on the fallback path, 60 motionless samples
produce phase `deep` with confidence 0.7 and uniform probabilities; the
argmax of those probabilities is class 0 (`awake`) and the probability at
the argmax is 0.25 — so neither `phase = argmax(probabilities)` nor
`confidence = probabilities[argmax]` holds for the fallback. -/
theorem c7_counterexample :
    rtPhase? (predict_current_phase false ⟨60, false, none, none⟩
      (List.replicate 60 ((0 : ℚ), 0, 0))) = some SleepPhase.deep ∧
    rtConfidence? (predict_current_phase false ⟨60, false, none, none⟩
      (List.replicate 60 ((0 : ℚ), 0, 0))) = some 0.7 ∧
    rtProbs? (predict_current_phase false ⟨60, false, none, none⟩
      (List.replicate 60 ((0 : ℚ), 0, 0))) = some ⟨0.25, 0.25, 0.25, 0.25⟩ ∧
    phaseMap (argmax4 (Probs.vec ⟨0.25, 0.25, 0.25, 0.25⟩)) = SleepPhase.awake ∧
    Probs.vec ⟨0.25, 0.25, 0.25, 0.25⟩
      (argmax4 (Probs.vec ⟨0.25, 0.25, 0.25, 0.25⟩)) = 0.25 ∧
    SleepPhase.deep ≠ SleepPhase.awake ∧ (0.7 : ℚ) ≠ 0.25 := by
  have hmag : magnitude 0 0 0 = 0 := magnitude_eval (by norm_num) (by norm_num)
  have hmean : listMean (List.replicate 60 (0 : ℚ)) = 0 :=
    listMean_replicate 60 0 (by norm_num)
  have hend : predict_current_phase false ⟨60, false, none, none⟩
      (List.replicate 60 ((0 : ℚ), 0, 0)) =
      .ok (fallbackResponse (List.replicate 60 (0 : ℚ))) := by
    rw [predict_current_phase, if_neg (by simp), if_neg (by simp)]
    have hmap : (lastN 60 (List.replicate 60 ((0 : ℚ), 0, 0))).map
        (fun d => magnitude d.1 d.2.1 d.2.2) = List.replicate 60 (0 : ℚ) := by
      simp [lastN, hmag]
    rw [hmap]
  have hfb : fallbackResponse (List.replicate 60 (0 : ℚ)) =
      ⟨SleepPhase.deep, 0.7, ⟨0.25, 0.25, 0.25, 0.25⟩, false⟩ := by
    simp only [fallbackResponse]
    rw [hmean, if_neg (by norm_num), if_pos (by norm_num)]
    rfl
  have hargmax : argmax4 (Probs.vec ⟨0.25, 0.25, 0.25, 0.25⟩) = 0 := by
    rw [argmax4, if_pos (by norm_num [Probs.vec])]
  rw [hend, hfb]
  refine ⟨rfl, rfl, rfl, ?_, ?_, by decide, by norm_num⟩
  · rw [hargmax]
    rfl
  · rw [hargmax]
    norm_num [Probs.vec]

/-- Witness for `c7_phase_argmax` on a concrete trained artifact whose
network outputs `[0.1, 0.4, 0.3, 0.2]`. -/
theorem c7_phase_argmax_witness :
    (⟨SleepPhase.light, 0.4, ⟨0.1, 0.4, 0.3, 0.2⟩⟩ : Prediction).phase =
      phaseMap (argmax4
        (⟨SleepPhase.light, 0.4, ⟨0.1, 0.4, 0.3, 0.2⟩⟩ : Prediction).probabilities.vec) :=
  (c7_phase_argmax.1
    ⟨60, true, some (fun _ => ![(0.1 : ℚ), 0.4, 0.3, 0.2]), some ⟨fun _ => 0, fun _ => 1⟩⟩
    (List.replicate 60 ((0 : ℚ), 0, 0))
    ⟨SleepPhase.light, 0.4, ⟨0.1, 0.4, 0.3, 0.2⟩⟩
    (by
      rw [predict_realtime_eval 60 true _ _ _ (by simp)]
      have hargmax : argmax4 ![(0.1 : ℚ), 0.4, 0.3, 0.2] = 1 := by
        rw [argmax4, if_neg (by norm_num), if_pos (by norm_num)]
      simp only [hargmax]
      simp [phaseMap, mkProbs])).1

/-! ### Claim C8 -/

/-- Claim C8 (amended): `predict` checks `is_trained` first and fails
with the not-trained error for every input when the artifact never
completed fit; `predict_realtime` performs NO such check — on a
never-fitted artifact with enough samples it fails with the scaler's
not-fitted error instead, never with the not-trained error. -/
theorem c8_not_trained_errors :
    (∀ (art : Artifact) (accel : List Sample3), art.is_trained = false →
        predict art accel = .error .notTrained) ∧
    (∀ (art : Artifact) (recent : List Sample3), art.scaler = none →
        art.sequence_length ≤ recent.length →
        predict_realtime art recent = .error .notFitted) := by
  constructor
  · intro art accel h
    rw [predict, if_pos h]
  · intro art recent hsc hlen
    rw [predict_realtime, if_neg (not_lt.2 hlen), hsc]

/-- Claim C8 counterexample: a never-fitted artifact
(`is_trained = false`, no model, no scaler) given 60 samples makes
`predict_realtime` fail with the not-fitted scaler error, which is not
the not-trained error the claim requires. -/
theorem c8_counterexample :
    modelErr? (predict_realtime ⟨60, false, none, none⟩
      (List.replicate 60 ((0 : ℚ), 0, 0))) = some ModelErr.notFitted ∧
    some ModelErr.notFitted ≠ some ModelErr.notTrained := by
  exact ⟨rfl, by decide⟩

/-- Witness for `c8_not_trained_errors` on a concrete untrained
artifact. -/
theorem c8_not_trained_errors_witness :
    predict ⟨60, false, none, none⟩ [] = .error .notTrained :=
  c8_not_trained_errors.1 ⟨60, false, none, none⟩ [] rfl

end SleepTracker
